import Mathlib

/-!
Shallow embedding of the classroom/session lifecycle service of the
`swerks-socket` repository (`src/services/classRoom.service.ts`), together
with the store it operates on, and proofs of the behavioural properties
stated in the specification.

Mongoose documents are modelled as plain structures held in lists inside a
`Store`; `Model.findById` becomes a keyed `List.find?`, and `doc.save()` on a
fetched document becomes a keyed in-place replacement.  Object ids are
numbers (a payload's `id` and `_id` are identified, as Mongoose's `id` getter
is the string form of `_id`); timestamps (`new Date()`) are an explicit
`now : Nat` argument.  The event-log recorder and the reporting path are not
part of the captured service sources (only their tests are); those pieces are
modelled from the spec, and each such definition says so in its doc comment.
-/

inductive UserRole
  | TEACHER
  | STUDENT
  deriving DecidableEq, Repr

inductive EventType
  | JOIN
  | LEAVE
  | START
  | END
  deriving DecidableEq, Repr

structure Participant where
  pid : Nat
  name : String
  email : String
  role : UserRole
  deriving DecidableEq, Repr

structure EventRec where
  eid : Nat
  etype : EventType
  actor : Nat
  timestamp : Nat
  deriving DecidableEq, Repr

structure Classroom where
  rid : Nat
  name : String
  isActive : Bool
  teacherParticipant : List Nat
  studentParticipant : List Nat
  participantHistory : List Nat
  eventLog : List Nat
  deriving DecidableEq, Repr

structure Session where
  sid : Nat
  classRoomId : Nat
  startedAt : Nat
  endedAt : Option Nat
  currentParticipants : List Nat
  participantsHistory : List Nat
  eventLog : List Nat
  deriving DecidableEq, Repr

structure Store where
  classrooms : List Classroom
  sessions : List Session
  participants : List Participant
  events : List EventRec
  nextPid : Nat
  nextSid : Nat
  deriving DecidableEq, Repr

inductive SvcError
  | roomNotFound
  | inactiveRoom
  | duplicateParticipant
  | sessionNotFound
  | alreadyInSession
  | missingClassroom
  deriving DecidableEq, Repr

deriving instance DecidableEq for Except

/-- `ClassRoom.findById(roomId)`. -/
def findClassroomById (st : Store) (roomId : Nat) : Option Classroom :=
  st.classrooms.find? (fun c => c.rid == roomId)

/-- `ClassSession.findById(sessionId)` (with `classRoomId` resolved lazily by
`findClassroomById` at the call sites that `.populate` it). -/
def findSessionById (st : Store) (sessionId : Nat) : Option Session :=
  st.sessions.find? (fun s => s.sid == sessionId)

/-- `Participant.findOne({ email })`. -/
def findParticipantRow (st : Store) (email : String) : Option Participant :=
  st.participants.find? (fun q => q.email == email)

/-- Resolve a participant reference (an id stored in a membership list) to its
row, as `.populate` does. -/
def lookupParticipant (st : Store) (pid : Nat) : Option Participant :=
  st.participants.find? (fun q => q.pid == pid)

/-- Replace the stored row that carries the same key, keeping all others:
`doc.save()` on a previously fetched document. -/
def updateBy {α : Type} (key : α → Nat) (x : α) (l : List α) : List α :=
  l.map (fun y => if key y = key x then x else y)

/-- `classroom.save()`. -/
def saveClassroom (st : Store) (c : Classroom) : Store :=
  { st with classrooms := updateBy (fun c0 => c0.rid) c st.classrooms }

/-- `session.save()`. -/
def saveSession (st : Store) (s : Session) : Store :=
  { st with sessions := updateBy (fun s0 => s0.sid) s st.sessions }

/-- Does the participant reference `pid` resolve to a row carrying `email`? -/
def pidHasEmail (st : Store) (email : String) (pid : Nat) : Bool :=
  match lookupParticipant st pid with
  | some q => q.email == email
  | none => false

/-- Modelled from the spec: the static `ClassRoom.findParticipantByEmail` used
by `joinClassroom`'s duplicate check is absent from the captured sources.  The
spec describes it as a membership-by-email query over current classroom
membership (not history).  Its call site passes only the email, so the query
necessarily ranges over every classroom's current teacher/student lists. -/
def findParticipantByEmail (st : Store) (email : String) : Bool :=
  st.classrooms.any (fun c =>
    (c.teacherParticipant ++ c.studentParticipant).any (pidHasEmail st email))

/-- The current-participant list of the classroom matching a role. -/
def currentList (c : Classroom) (role : UserRole) : List Nat :=
  match role with
  | UserRole.TEACHER => c.teacherParticipant
  | UserRole.STUDENT => c.studentParticipant

/-- The shared tail of `joinClassroom` after the participant row has been
found or created: push the reference onto the role's current list and onto
`participantHistory` (source lines 131-141), record a JOIN event against the
classroom (modelled from the spec, step 6 of `joinClassroom`; the recorder
builds `\x7btype, actor, timestamp\x7d` and appends the record's id to the
classroom's `eventLog`), then persist the classroom. -/
def addToClassroom (now : Nat) (st : Store) (c : Classroom) (p : Participant)
    (role : UserRole) : Participant × Store :=
  let c1 :=
    match role with
    | UserRole.TEACHER => { c with teacherParticipant := c.teacherParticipant ++ [p.pid] }
    | UserRole.STUDENT => { c with studentParticipant := c.studentParticipant ++ [p.pid] }
  let c2 := { c1 with participantHistory := c1.participantHistory ++ [p.pid] }
  let e : EventRec :=
    { eid := st.events.length, etype := EventType.JOIN, actor := p.pid, timestamp := now }
  let c3 := { c2 with eventLog := c2.eventLog ++ [e.eid] }
  let st1 := { st with events := st.events ++ [e] }
  (p, saveClassroom st1 c3)

/-- `ClassRoomService.joinClassroom` (src/services/classRoom.service.ts):
fetch the room, reject student joins to inactive rooms, run the duplicate
check when a row with the email already exists, create the row otherwise,
then add to the room via `addToClassroom`. -/
def joinClassroom (now : Nat) (st : Store) (roomId : Nat) (name email : String)
    (role : UserRole) : Except SvcError (Participant × Store) :=
  match findClassroomById st roomId with
  | none => Except.error SvcError.roomNotFound
  | some classroom =>
    if role = UserRole.STUDENT ∧ classroom.isActive = false then
      Except.error SvcError.inactiveRoom
    else
      match findParticipantRow st email with
      | some getParticipant =>
        if findParticipantByEmail st email then
          Except.error SvcError.duplicateParticipant
        else
          Except.ok (addToClassroom now st classroom getParticipant role)
      | none =>
        let newP : Participant := { pid := st.nextPid, name := name, email := email, role := role }
        let st1 := { st with participants := st.participants ++ [newP], nextPid := st.nextPid + 1 }
        Except.ok (addToClassroom now st1 classroom newP role)

/-- `ClassRoomService.startClass`: unconditionally create and persist a new
session seeded with the teacher; no lookup of the room and no role check. -/
def startClass (now : Nat) (st : Store) (roomId teacherId : Nat) : Session × Store :=
  let session : Session :=
    { sid := st.nextSid, classRoomId := roomId, startedAt := now, endedAt := none,
      currentParticipants := [teacherId], participantsHistory := [teacherId], eventLog := [] }
  (session, { st with sessions := st.sessions ++ [session], nextSid := st.nextSid + 1 })

/-- `ClassRoomService.leaveClassSession`: filter the leaver out of
`currentParticipants`; when the leaver is the teacher, clear the list and set
`endedAt`; persist.  The LEAVE event (and, on the teacher path, the END event
appended after it) is modelled from the spec, which records them against the
session's event log; the captured sources hold no event code, but the
repository's tests expect exactly this shape. -/
def leaveClassSession (now : Nat) (st : Store) (sessionId userId : Nat)
    (role : UserRole) : Except SvcError (Session × Store) :=
  match findSessionById st sessionId with
  | none => Except.error SvcError.sessionNotFound
  | some session =>
    let removed := session.currentParticipants.filter (fun pid => pid != userId)
    let eLeave : EventRec :=
      { eid := st.events.length, etype := EventType.LEAVE, actor := userId, timestamp := now }
    match role with
    | UserRole.TEACHER =>
      let eEnd : EventRec :=
        { eid := st.events.length + 1, etype := EventType.END, actor := userId, timestamp := now }
      let st2 := { st with events := st.events ++ [eLeave, eEnd] }
      let session1 := { session with
        currentParticipants := [], endedAt := some now,
        eventLog := session.eventLog ++ [eLeave.eid, eEnd.eid] }
      Except.ok (session1, saveSession st2 session1)
    | UserRole.STUDENT =>
      let st1 := { st with events := st.events ++ [eLeave] }
      let session1 := { session with
        currentParticipants := removed,
        eventLog := session.eventLog ++ [eLeave.eid] }
      Except.ok (session1, saveSession st1 session1)

/-- `ClassRoomService.leaveClassRoom`, exactly as the source has it: note the
filter keeps the entries *equal* to `userId` (`participant === userId`), and
the classroom is returned without being saved. -/
def leaveClassRoom (st : Store) (roomId userId : Nat) (role : UserRole) :
    Except SvcError Classroom :=
  match findClassroomById st roomId with
  | none => Except.error SvcError.sessionNotFound
  | some classroom =>
    match role with
    | UserRole.STUDENT =>
      Except.ok { classroom with
        studentParticipant := classroom.studentParticipant.filter (fun p => p == userId) }
    | UserRole.TEACHER =>
      Except.ok { classroom with
        teacherParticipant := classroom.teacherParticipant.filter (fun p => p == userId) }

/-- `ClassRoomService.joinSessionViaSessionList`: fetch the session and its
classroom; when no row with the email exists, create it and push the payload's
id onto the classroom's student/history lists and the session's current and
history lists; when a row exists, fail if the payload is already in the
session's `currentParticipants`, otherwise push onto the classroom's
student/history lists only when the payload is absent from
`studentParticipant`, and push onto the session's lists unconditionally. -/
def joinSessionViaSessionList (st : Store) (sessionId : Nat) (part : Participant) :
    Except SvcError ((Participant × Nat) × Store) :=
  match findSessionById st sessionId with
  | none => Except.error SvcError.sessionNotFound
  | some session =>
    match findClassroomById st session.classRoomId with
    | none => Except.error SvcError.missingClassroom
    | some classRoom =>
      match findParticipantRow st part.email with
      | none =>
        let getParticipant := part
        let st1 := { st with participants := st.participants ++ [part] }
        let classRoom1 := { classRoom with
          studentParticipant := classRoom.studentParticipant ++ [part.pid],
          participantHistory := classRoom.participantHistory ++ [part.pid] }
        let session1 := { session with
          currentParticipants := session.currentParticipants ++ [part.pid],
          participantsHistory := session.participantsHistory ++ [part.pid] }
        Except.ok ((getParticipant, classRoom.rid), saveSession (saveClassroom st1 classRoom1) session1)
      | some getParticipant =>
        if part.pid ∈ session.currentParticipants then
          Except.error SvcError.alreadyInSession
        else
          if part.pid ∈ classRoom.studentParticipant then
            let session1 := { session with
              currentParticipants := session.currentParticipants ++ [part.pid],
              participantsHistory := session.participantsHistory ++ [part.pid] }
            Except.ok ((getParticipant, classRoom.rid), saveSession st session1)
          else
            let classRoom1 := { classRoom with
              studentParticipant := classRoom.studentParticipant ++ [part.pid],
              participantHistory := classRoom.participantHistory ++ [part.pid] }
            let session1 := { session with
              currentParticipants := session.currentParticipants ++ [part.pid],
              participantsHistory := session.participantsHistory ++ [part.pid] }
            Except.ok ((getParticipant, classRoom.rid),
              saveSession (saveClassroom st classRoom1) session1)

/-- Well-formedness of a store: participant ids are below the id counter and
pairwise distinct, and every id held in a classroom's current lists is an
allocated id. -/
def Store.WF (st : Store) : Prop :=
  (∀ p ∈ st.participants, p.pid < st.nextPid) ∧
  (st.participants.map (fun p => p.pid)).Nodup ∧
  (∀ c ∈ st.classrooms,
    (∀ pid ∈ c.teacherParticipant, pid < st.nextPid) ∧
    (∀ pid ∈ c.studentParticipant, pid < st.nextPid))

instance (st : Store) : Decidable st.WF := by
  unfold Store.WF
  infer_instance

/-- An event entry of the report, with the actor resolved to name and role. -/
structure ReportEvent where
  etype : EventType
  name : String
  role : UserRole
  timestamp : Nat
  deriving DecidableEq, Repr

/-- One session of the report. -/
structure SessionReport where
  startedAt : Nat
  endedAt : Option Nat
  eventLog : List ReportEvent
  deriving DecidableEq, Repr

/-- The report payload for one classroom. -/
structure ClassRoomReport where
  rid : Nat
  name : String
  eventLog : List ReportEvent
  sessions : List SessionReport
  deriving DecidableEq, Repr

/-- Tagged result of the read-only reporting path: it distinguishes
success from not-found instead of raising, and the not-found arm carries no
data. -/
inductive ReportResult
  | notFound (statusCode : Nat) (message : String)
  | success (statusCode : Nat) (data : ClassRoomReport)
  deriving DecidableEq, Repr

/-- Modelled from the spec: resolution of one logged event id into a
`\x7btype, name, role, timestamp\x7d` report entry, the actor reference
replaced by the participant's name and role. -/
def resolveEvent (st : Store) (eid : Nat) : Option ReportEvent :=
  match st.events.find? (fun e => e.eid == eid) with
  | none => none
  | some e =>
    match lookupParticipant st e.actor with
    | none => none
    | some q => some { etype := e.etype, name := q.name, role := q.role, timestamp := e.timestamp }

/-- Modelled from the spec: `getClassRoomReportById` is absent from the
captured sources (only its tests are).  Per the spec it fetches the room
read-only (returning a tagged 404 result with message "Class room not found"
and no data when absent), fetches all sessions persisted for that room, and
projects classroom-level and per-session event logs into resolved
`\x7btype, name, role, timestamp\x7d` entries. -/
def getClassRoomReportById (st : Store) (roomId : Nat) : ReportResult :=
  match findClassroomById st roomId with
  | none => ReportResult.notFound 404 "Class room not found"
  | some c =>
    ReportResult.success 200
      { rid := c.rid, name := c.name,
        eventLog := c.eventLog.filterMap (resolveEvent st),
        sessions := (st.sessions.filter (fun s => s.classRoomId == c.rid)).map (fun s =>
          { startedAt := s.startedAt, endedAt := s.endedAt,
            eventLog := s.eventLog.filterMap (resolveEvent st) }) }

/-! ## Concrete stores used to instantiate the theorems -/

/-- An empty, active classroom. -/
def w1room : Classroom :=
  { rid := 0, name := "R", isActive := true, teacherParticipant := [],
    studentParticipant := [], participantHistory := [], eventLog := [] }

/-- A fresh store holding only `w1room`. -/
def w1 : Store :=
  { classrooms := [w1room], sessions := [], participants := [], events := [],
    nextPid := 0, nextSid := 0 }

/-- The participant created by joining `w1` with email `a@x`. -/
def w1p : Participant := { pid := 0, name := "A", email := "a@x", role := UserRole.STUDENT }

/-- The store resulting from that join. -/
def w1st : Store :=
  { classrooms := [{ rid := 0, name := "R", isActive := true, teacherParticipant := [],
                     studentParticipant := [0], participantHistory := [0], eventLog := [0] }],
    sessions := [],
    participants := [w1p],
    events := [{ eid := 0, etype := EventType.JOIN, actor := 0, timestamp := 5 }],
    nextPid := 1, nextSid := 0 }

/-- An inactive classroom whose teacher (pid 0) is already a member. -/
def cx2room : Classroom :=
  { rid := 0, name := "R", isActive := false, teacherParticipant := [0],
    studentParticipant := [], participantHistory := [0], eventLog := [] }

/-- A store holding only `cx2room` and that teacher's row. -/
def cx2 : Store :=
  { classrooms := [cx2room], sessions := [],
    participants := [{ pid := 0, name := "T", email := "t@x", role := UserRole.TEACHER }],
    events := [], nextPid := 1, nextSid := 0 }

/-- A running session with two participants. -/
def w3sess : Session :=
  { sid := 0, classRoomId := 0, startedAt := 1, endedAt := none,
    currentParticipants := [7, 8], participantsHistory := [7, 8], eventLog := [] }

/-- A store holding only `w3sess`. -/
def w3 : Store :=
  { classrooms := [], sessions := [w3sess], participants := [], events := [],
    nextPid := 9, nextSid := 1 }

/-- An active, empty classroom beside a second classroom whose student list
already holds pid 3 (email `b@x`). -/
def cx5roomA : Classroom :=
  { rid := 0, name := "A", isActive := true, teacherParticipant := [],
    studentParticipant := [], participantHistory := [], eventLog := [] }

/-- The second classroom of the `cx5` store: pid 3 is one of its students. -/
def cx5roomB : Classroom :=
  { rid := 1, name := "B", isActive := true, teacherParticipant := [],
    studentParticipant := [3], participantHistory := [3], eventLog := [] }

/-- Store with two rooms where email `b@x` is a member of room 1 only. -/
def cx5 : Store :=
  { classrooms := [cx5roomA, cx5roomB], sessions := [],
    participants := [{ pid := 3, name := "B", email := "b@x", role := UserRole.STUDENT }],
    events := [], nextPid := 4, nextSid := 0 }

/-- A classroom with students 1 and 2 and teacher 9. -/
def cx7room : Classroom :=
  { rid := 0, name := "R", isActive := true, teacherParticipant := [9],
    studentParticipant := [1, 2], participantHistory := [9, 1, 2], eventLog := [] }

/-- Store holding only `cx7room`. -/
def cx7 : Store :=
  { classrooms := [cx7room], sessions := [], participants := [], events := [],
    nextPid := 10, nextSid := 0 }

/-- A classroom whose event log holds one JOIN event by pid 3. -/
def w8room : Classroom :=
  { rid := 0, name := "R", isActive := true, teacherParticipant := [],
    studentParticipant := [3], participantHistory := [3], eventLog := [0] }

/-- Store for the reporting theorem: one room, two of three sessions owned by
it, one logged event. -/
def w8 : Store :=
  { classrooms := [w8room],
    sessions :=
      [{ sid := 0, classRoomId := 0, startedAt := 1, endedAt := some 2,
         currentParticipants := [], participantsHistory := [3], eventLog := [0] },
       { sid := 1, classRoomId := 5, startedAt := 1, endedAt := none,
         currentParticipants := [], participantsHistory := [], eventLog := [] },
       { sid := 2, classRoomId := 0, startedAt := 3, endedAt := none,
         currentParticipants := [3], participantsHistory := [3], eventLog := [] }],
    participants := [{ pid := 3, name := "B", email := "b@x", role := UserRole.STUDENT }],
    events := [{ eid := 0, etype := EventType.JOIN, actor := 3, timestamp := 1 }],
    nextPid := 4, nextSid := 3 }

/-- A classroom whose teacher list already holds pid 7, student list empty. -/
def w9room : Classroom :=
  { rid := 0, name := "R", isActive := true, teacherParticipant := [7],
    studentParticipant := [], participantHistory := [7], eventLog := [] }

/-- An active session owned by `w9room` with nobody currently inside. -/
def w9sess : Session :=
  { sid := 0, classRoomId := 0, startedAt := 1, endedAt := none,
    currentParticipants := [], participantsHistory := [7], eventLog := [] }

/-- Store for the session-list join theorems: the payload's email `t@x`
already has a row (pid 7) and pid 7 sits only in the teacher list. -/
def w9 : Store :=
  { classrooms := [w9room], sessions := [w9sess],
    participants := [{ pid := 7, name := "T", email := "t@x", role := UserRole.TEACHER }],
    events := [], nextPid := 8, nextSid := 1 }

/-- The payload handed to `joinSessionViaSessionList` in the concrete
instantiations: the same person as row pid 7. -/
def w9part : Participant := { pid := 7, name := "T", email := "t@x", role := UserRole.TEACHER }

/-! ## Helper lemmas about the store -/

theorem find?_updateBy {α : Type} (key : α → Nat) (k : Nat) (x c : α) (l : List α)
    (h : l.find? (fun y => key y == k) = some c) (hk : key x = key c) :
    (updateBy key x l).find? (fun y => key y == k) = some x := by
  induction l with
  | nil => simp [List.find?] at h
  | cons a t ih =>
    simp only [updateBy, List.map_cons]
    cases hpa : (key a == k) with
    | true =>
      have hac : a = c := by
        simp only [List.find?_cons, hpa] at h
        exact Option.some.inj h
      subst hac
      rw [if_pos hk.symm]
      have hx : (key x == k) = true := by rw [hk]; exact hpa
      simp [List.find?_cons, hx]
    | false =>
      have h' : List.find? (fun y => key y == k) t = some c := by
        simpa [List.find?_cons, hpa] using h
      have hck : (key c == k) = true := by simpa using List.find?_some h'
      have hax : ¬ key a = key x := by
        intro hax
        rw [hax, hk] at hpa
        rw [hpa] at hck
        cases hck
      rw [if_neg hax]
      have hgoal := ih h'
      simpa [List.find?_cons, hpa, updateBy] using hgoal

theorem findClassroom_after_save (st : Store) (roomId : Nat) (c c' : Classroom)
    (h : findClassroomById st roomId = some c) (hr : c'.rid = c.rid) :
    findClassroomById (saveClassroom st c') roomId = some c' := by
  unfold findClassroomById at h
  unfold findClassroomById saveClassroom
  exact find?_updateBy (fun c0 => c0.rid) roomId c' c st.classrooms h hr

theorem findSession_after_save (st : Store) (sessionId : Nat) (s s' : Session)
    (h : findSessionById st sessionId = some s) (hr : s'.sid = s.sid) :
    findSessionById (saveSession st s') sessionId = some s' := by
  unfold findSessionById at h
  unfold findSessionById saveSession
  exact find?_updateBy (fun s0 => s0.sid) sessionId s' s st.sessions h hr

theorem count_filter_ne (l : List Nat) (u x : Nat) (hx : x ≠ u) :
    (l.filter (fun pid => pid != u)).count x = l.count x := by
  induction l with
  | nil => rfl
  | cons a t ih =>
    simp only [List.filter_cons]
    by_cases hau : a = u
    · subst hau
      simp [List.count_cons, hx, ih]
    · simp [hau, List.count_cons, ih]

theorem findParticipantByEmail_of_mem (st : Store) (email : String)
    (c : Classroom) (p : Participant) (role : UserRole)
    (hnodup : (st.participants.map (fun q => q.pid)).Nodup)
    (hc : c ∈ st.classrooms) (hp : p ∈ st.participants) (he : p.email = email)
    (hmem : p.pid ∈ currentList c role) :
    findParticipantByEmail st email = true := by
  unfold findParticipantByEmail
  rw [List.any_eq_true]
  refine ⟨c, hc, ?_⟩
  rw [List.any_eq_true]
  refine ⟨p.pid, ?_, ?_⟩
  · cases role with
    | TEACHER =>
      simp only [currentList] at hmem
      exact List.mem_append_left _ hmem
    | STUDENT =>
      simp only [currentList] at hmem
      exact List.mem_append_right _ hmem
  · unfold pidHasEmail lookupParticipant
    have hsome : (st.participants.find? (fun q => q.pid == p.pid)).isSome := by
      rw [List.find?_isSome]
      exact ⟨p, hp, by simp⟩
    obtain ⟨q, hq⟩ := Option.isSome_iff_exists.mp hsome
    have hqmem : q ∈ st.participants := List.mem_of_find?_eq_some hq
    have hqpid : q.pid = p.pid := by simpa using List.find?_some hq
    have hqp : q = p := List.inj_on_of_nodup_map hnodup hqmem hp hqpid
    rw [hq]
    simp [hqp, he]

theorem addToClassroom_post (now : Nat) (st : Store) (roomId : Nat) (c : Classroom)
    (p : Participant) (role : UserRole)
    (hc : findClassroomById st roomId = some c)
    (hne : p.pid ∉ currentList c role) :
    (addToClassroom now st c p role).1 = p ∧
    ∃ c', findClassroomById (addToClassroom now st c p role).2 roomId = some c' ∧
      (currentList c' role).count p.pid = 1 ∧
      c'.participantHistory.length = c.participantHistory.length + 1 ∧
      ∃ e : EventRec, (addToClassroom now st c p role).2.events = st.events ++ [e] ∧
        e.etype = EventType.JOIN ∧ e.actor = p.pid ∧
        c'.eventLog = c.eventLog ++ [e.eid] := by
  cases role with
  | TEACHER =>
    simp only [currentList] at hne
    have h0 : c.teacherParticipant.count p.pid = 0 := List.count_eq_zero.mpr hne
    refine ⟨rfl,
      { c with teacherParticipant := c.teacherParticipant ++ [p.pid],
               participantHistory := c.participantHistory ++ [p.pid],
               eventLog := c.eventLog ++ [st.events.length] },
      ?_, ?_, ?_,
      { eid := st.events.length, etype := EventType.JOIN, actor := p.pid, timestamp := now },
      rfl, rfl, rfl, rfl⟩
    · exact findClassroom_after_save
        { st with events := st.events ++
            [{ eid := st.events.length, etype := EventType.JOIN, actor := p.pid, timestamp := now }] }
        roomId c _ hc rfl
    · simp [currentList, List.count_append, h0]
    · simp
  | STUDENT =>
    simp only [currentList] at hne
    have h0 : c.studentParticipant.count p.pid = 0 := List.count_eq_zero.mpr hne
    refine ⟨rfl,
      { c with studentParticipant := c.studentParticipant ++ [p.pid],
               participantHistory := c.participantHistory ++ [p.pid],
               eventLog := c.eventLog ++ [st.events.length] },
      ?_, ?_, ?_,
      { eid := st.events.length, etype := EventType.JOIN, actor := p.pid, timestamp := now },
      rfl, rfl, rfl, rfl⟩
    · exact findClassroom_after_save
        { st with events := st.events ++
            [{ eid := st.events.length, etype := EventType.JOIN, actor := p.pid, timestamp := now }] }
        roomId c _ hc rfl
    · simp [currentList, List.count_append, h0]
    · simp

/-! ## Claim theorems -/

/-- C1: every successful `joinClassroom` leaves the returned participant's
reference exactly once in the role-appropriate current list, grows
`participantHistory` by exactly one element, and appends exactly one JOIN
event referencing that participant to the classroom's event log. -/
theorem joinClassroom_membership_event (now : Nat) (st : Store) (roomId : Nat)
    (name email : String) (role : UserRole) (p : Participant) (st' : Store) (c : Classroom)
    (hwf : Store.WF st) (hc : findClassroomById st roomId = some c)
    (h : joinClassroom now st roomId name email role = Except.ok (p, st')) :
    ∃ c', findClassroomById st' roomId = some c' ∧
      (currentList c' role).count p.pid = 1 ∧
      c'.participantHistory.length = c.participantHistory.length + 1 ∧
      ∃ e : EventRec, st'.events = st.events ++ [e] ∧ e.etype = EventType.JOIN ∧
        e.actor = p.pid ∧ c'.eventLog = c.eventLog ++ [e.eid] := by
  obtain ⟨hbound, hnodup, hrooms⟩ := hwf
  have hcmem : c ∈ st.classrooms := List.mem_of_find?_eq_some hc
  unfold joinClassroom at h
  split at h
  next heq => exact absurd h (by simp)
  next classroom heq =>
    rw [hc] at heq
    have hcc : classroom = c := (Option.some.inj heq).symm
    rw [hcc] at h
    split at h
    next hia => exact absurd h (by simp)
    next hia =>
      split at h
      next q hq =>
        split at h
        next hdup => exact absurd h (by simp)
        next hdup =>
          have hdup' : findParticipantByEmail st email = false := by
            simpa using hdup
          simp only [Except.ok.injEq] at h
          have h2 : (addToClassroom now st c q role).2 = st' := by rw [h]
          have hqp : q = p := by
            have h1p : (addToClassroom now st c q role).1 = p := by rw [h]
            exact h1p
          have hqmem : q ∈ st.participants := List.mem_of_find?_eq_some hq
          have hqemail : q.email = email := by simpa using List.find?_some hq
          have hne : q.pid ∉ currentList c role := by
            intro hmem
            have hx := findParticipantByEmail_of_mem st email c q role hnodup hcmem hqmem
              hqemail hmem
            rw [hdup'] at hx
            cases hx
          obtain ⟨h1, c', hfind, hcount, hlen, e, hev, het, hac, hlog⟩ :=
            addToClassroom_post now st roomId c q role hc hne
          rw [h2] at hfind hev
          subst hqp
          exact ⟨c', hfind, hcount, hlen, e, hev, het, hac, hlog⟩
      next hq =>
        simp only [Except.ok.injEq] at h
        have hne : (⟨st.nextPid, name, email, role⟩ : Participant).pid ∉ currentList c role := by
          intro hmem
          have hb := hrooms c hcmem
          cases role with
          | TEACHER =>
            simp only [currentList] at hmem
            exact absurd (hb.1 _ hmem) (Nat.lt_irrefl _)
          | STUDENT =>
            simp only [currentList] at hmem
            exact absurd (hb.2 _ hmem) (Nat.lt_irrefl _)
        have hc1 : findClassroomById
            { st with participants := st.participants ++ [⟨st.nextPid, name, email, role⟩],
                      nextPid := st.nextPid + 1 } roomId = some c := hc
        obtain ⟨h1, c', hfind, hcount, hlen, e, hev, het, hac, hlog⟩ :=
          addToClassroom_post now
            { st with participants := st.participants ++ [⟨st.nextPid, name, email, role⟩],
                      nextPid := st.nextPid + 1 }
            roomId c ⟨st.nextPid, name, email, role⟩ role hc1 hne
        have h2 : (addToClassroom now
            { st with participants := st.participants ++ [⟨st.nextPid, name, email, role⟩],
                      nextPid := st.nextPid + 1 }
            c ⟨st.nextPid, name, email, role⟩ role).2 = st' := by rw [h]
        have hp : (⟨st.nextPid, name, email, role⟩ : Participant) = p := by
          have h1p : (addToClassroom now
              { st with participants := st.participants ++ [⟨st.nextPid, name, email, role⟩],
                        nextPid := st.nextPid + 1 }
              c ⟨st.nextPid, name, email, role⟩ role).1 = p := by rw [h]
          exact h1p
        rw [h2] at hfind hev
        subst hp
        exact ⟨c', hfind, hcount, hlen, e, hev, het, hac, hlog⟩

theorem joinClassroom_eq_of_found (now : Nat) (st : Store) (roomId : Nat)
    (name email : String) (role : UserRole) (c : Classroom)
    (hc : findClassroomById st roomId = some c) :
    joinClassroom now st roomId name email role =
      if role = UserRole.STUDENT ∧ c.isActive = false then
        Except.error SvcError.inactiveRoom
      else
        match findParticipantRow st email with
        | some getParticipant =>
          if findParticipantByEmail st email then
            Except.error SvcError.duplicateParticipant
          else
            Except.ok (addToClassroom now st c getParticipant role)
        | none =>
          Except.ok (addToClassroom now
            { st with
              participants := st.participants ++ [⟨st.nextPid, name, email, role⟩],
              nextPid := st.nextPid + 1 }
            c ⟨st.nextPid, name, email, role⟩ role) := by
  unfold joinClassroom
  rw [hc]

/-- C1 witness: the membership/history/event-log postcondition instantiated on
a fresh store with one empty active room. -/
theorem joinClassroom_membership_event_w :
    ∃ c', findClassroomById w1st 0 = some c' ∧
      (currentList c' UserRole.STUDENT).count w1p.pid = 1 ∧
      c'.participantHistory.length = w1room.participantHistory.length + 1 ∧
      ∃ e : EventRec, w1st.events = w1.events ++ [e] ∧ e.etype = EventType.JOIN ∧
        e.actor = w1p.pid ∧ c'.eventLog = w1room.eventLog ++ [e.eid] :=
  joinClassroom_membership_event 5 w1 0 "A" "a@x" UserRole.STUDENT w1p w1st w1room
    (by decide) (by decide) (by decide)

/-- C2 counterexample: in the inactive room `cx2room` a teacher join does not
always succeed: the duplicate check can fail it. -/
theorem joinClassroom_inactive_teacher_cx :
    findClassroomById cx2 0 = some cx2room ∧ cx2room.isActive = false ∧
    joinClassroom 0 cx2 0 "T" "t@x" UserRole.TEACHER =
      Except.error SvcError.duplicateParticipant := by decide

/-- C2 (amended): for an inactive room, student joins always fail with
InactiveRoom; teacher joins are unaffected by `isActive`: they never fail
with InactiveRoom, fail with DuplicateParticipant exactly when the duplicate
check fires, and succeed otherwise. -/
theorem joinClassroom_inactive_room (now : Nat) (st : Store) (roomId : Nat) (c : Classroom)
    (hc : findClassroomById st roomId = some c) (hinact : c.isActive = false) :
    (∀ name email, joinClassroom now st roomId name email UserRole.STUDENT =
        Except.error SvcError.inactiveRoom) ∧
    (∀ name email,
      joinClassroom now st roomId name email UserRole.TEACHER ≠
        Except.error SvcError.inactiveRoom ∧
      (((findParticipantRow st email).isSome ∧ findParticipantByEmail st email = true) →
        joinClassroom now st roomId name email UserRole.TEACHER =
          Except.error SvcError.duplicateParticipant) ∧
      (¬((findParticipantRow st email).isSome ∧ findParticipantByEmail st email = true) →
        ∃ p st', joinClassroom now st roomId name email UserRole.TEACHER =
          Except.ok (p, st'))) := by
  have hcond : ¬(UserRole.TEACHER = UserRole.STUDENT ∧ c.isActive = false) := by
    intro hx
    cases hx.1
  constructor
  · intro name email
    rw [joinClassroom_eq_of_found now st roomId name email UserRole.STUDENT c hc]
    rw [if_pos ⟨rfl, hinact⟩]
  · intro name email
    refine ⟨?_, ?_, ?_⟩
    · rw [joinClassroom_eq_of_found now st roomId name email UserRole.TEACHER c hc]
      rw [if_neg hcond]
      cases hq : findParticipantRow st email with
      | some q =>
        cases hdup : findParticipantByEmail st email with
        | true => simp [hdup]
        | false => simp [hdup]
      | none => simp
    · intro hd
      obtain ⟨hsome, hdup⟩ := hd
      obtain ⟨q, hq⟩ := Option.isSome_iff_exists.mp hsome
      rw [joinClassroom_eq_of_found now st roomId name email UserRole.TEACHER c hc]
      rw [if_neg hcond, hq]
      simp [hdup]
    · intro hd
      rw [joinClassroom_eq_of_found now st roomId name email UserRole.TEACHER c hc]
      rw [if_neg hcond]
      cases hq : findParticipantRow st email with
      | some q =>
        have hdup : findParticipantByEmail st email = false := by
          cases hdup' : findParticipantByEmail st email with
          | true =>
            exact absurd ⟨by rw [hq]; rfl, hdup'⟩ hd
          | false => rfl
        refine ⟨(addToClassroom now st c q UserRole.TEACHER).1,
                (addToClassroom now st c q UserRole.TEACHER).2, ?_⟩
        simp [hdup]
      | none => exact ⟨_, _, rfl⟩

/-- C2 witness: the amended behaviour instantiated on the concrete inactive
store `cx2`: a student join fails with InactiveRoom and a teacher join with a
fresh email does not fail with InactiveRoom. -/
theorem joinClassroom_inactive_room_w :
    joinClassroom 0 cx2 0 "S" "s@x" UserRole.STUDENT = Except.error SvcError.inactiveRoom ∧
    joinClassroom 0 cx2 0 "U" "u@x" UserRole.TEACHER ≠ Except.error SvcError.inactiveRoom := by
  have hthm := joinClassroom_inactive_room 0 cx2 0 cx2room (by decide) (by decide)
  exact ⟨hthm.1 "S" "s@x", (hthm.2 "U" "u@x").1⟩

/-- C3: a teacher leave on an existing session force-ends it: empty
`currentParticipants`, `endedAt` set to the call time, and exactly the two
events LEAVE then END appended to the store and referenced, in that order, at
the end of the session's event log. -/
theorem leaveClassSession_teacher (now : Nat) (st : Store) (sessionId userId : Nat)
    (session : Session) (hs : findSessionById st sessionId = some session) :
    ∃ s' st', leaveClassSession now st sessionId userId UserRole.TEACHER =
        Except.ok (s', st') ∧
      s'.currentParticipants = [] ∧ s'.endedAt = some now ∧
      findSessionById st' sessionId = some s' ∧
      ∃ eL eE : EventRec, st'.events = st.events ++ [eL, eE] ∧
        eL.etype = EventType.LEAVE ∧ eL.actor = userId ∧
        eE.etype = EventType.END ∧ eE.actor = userId ∧
        s'.eventLog = session.eventLog ++ [eL.eid, eE.eid] := by
  refine ⟨{ session with
      currentParticipants := [],
      endedAt := some now,
      eventLog := session.eventLog ++ [st.events.length, st.events.length + 1] },
    saveSession
      { st with
        events := st.events ++
          [⟨st.events.length, EventType.LEAVE, userId, now⟩,
           ⟨st.events.length + 1, EventType.END, userId, now⟩] }
      { session with
        currentParticipants := [],
        endedAt := some now,
        eventLog := session.eventLog ++ [st.events.length, st.events.length + 1] },
    ?_, rfl, rfl, ?_,
    ⟨st.events.length, EventType.LEAVE, userId, now⟩,
    ⟨st.events.length + 1, EventType.END, userId, now⟩,
    rfl, rfl, rfl, rfl, rfl, rfl⟩
  · unfold leaveClassSession
    rw [hs]
  · exact findSession_after_save _ sessionId session _ hs rfl

/-- C4: a student leave on an existing session removes exactly that user from
`currentParticipants` (all other members remain, in order), leaves `endedAt`
unset, and appends exactly one LEAVE event referencing the leaver. -/
theorem leaveClassSession_student (now : Nat) (st : Store) (sessionId userId : Nat)
    (session : Session) (hs : findSessionById st sessionId = some session)
    (hmem : userId ∈ session.currentParticipants)
    (hend : session.endedAt = none) :
    ∃ s' st', leaveClassSession now st sessionId userId UserRole.STUDENT =
        Except.ok (s', st') ∧
      s'.currentParticipants = session.currentParticipants.filter (fun pid => pid != userId) ∧
      userId ∉ s'.currentParticipants ∧
      (∀ x, x ≠ userId →
        s'.currentParticipants.count x = session.currentParticipants.count x) ∧
      s'.endedAt = none ∧
      findSessionById st' sessionId = some s' ∧
      ∃ e : EventRec, st'.events = st.events ++ [e] ∧
        e.etype = EventType.LEAVE ∧ e.actor = userId ∧
        s'.eventLog = session.eventLog ++ [e.eid] := by
  refine ⟨{ session with
      currentParticipants := session.currentParticipants.filter (fun pid => pid != userId),
      eventLog := session.eventLog ++ [st.events.length] },
    saveSession
      { st with
        events := st.events ++ [⟨st.events.length, EventType.LEAVE, userId, now⟩] }
      { session with
        currentParticipants := session.currentParticipants.filter (fun pid => pid != userId),
        eventLog := session.eventLog ++ [st.events.length] },
    ?_, rfl, ?_, ?_, hend, ?_,
    ⟨st.events.length, EventType.LEAVE, userId, now⟩,
    rfl, rfl, rfl, rfl⟩
  · unfold leaveClassSession
    rw [hs]
  · intro hx
    have := List.of_mem_filter hx
    simp at this
  · intro x hx
    exact count_filter_ne session.currentParticipants userId x hx
  · exact findSession_after_save _ sessionId session _ hs rfl

/-- C3 witness: the teacher-leave postcondition instantiated on the concrete
running session `w3sess`. -/
theorem leaveClassSession_teacher_w :
    ∃ s' st', leaveClassSession 9 w3 0 7 UserRole.TEACHER = Except.ok (s', st') ∧
      s'.currentParticipants = [] ∧ s'.endedAt = some 9 ∧
      findSessionById st' 0 = some s' ∧
      ∃ eL eE : EventRec, st'.events = w3.events ++ [eL, eE] ∧
        eL.etype = EventType.LEAVE ∧ eL.actor = 7 ∧
        eE.etype = EventType.END ∧ eE.actor = 7 ∧
        s'.eventLog = w3sess.eventLog ++ [eL.eid, eE.eid] :=
  leaveClassSession_teacher 9 w3 0 7 w3sess (by decide)

/-- C4 witness: the student-leave postcondition instantiated on the concrete
running session `w3sess` with participant 7 leaving. -/
theorem leaveClassSession_student_w :
    ∃ s' st', leaveClassSession 9 w3 0 7 UserRole.STUDENT = Except.ok (s', st') ∧
      s'.currentParticipants = w3sess.currentParticipants.filter (fun pid => pid != 7) ∧
      7 ∉ s'.currentParticipants ∧
      (∀ x, x ≠ 7 → s'.currentParticipants.count x = w3sess.currentParticipants.count x) ∧
      s'.endedAt = none ∧
      findSessionById st' 0 = some s' ∧
      ∃ e : EventRec, st'.events = w3.events ++ [e] ∧
        e.etype = EventType.LEAVE ∧ e.actor = 7 ∧
        s'.eventLog = w3sess.eventLog ++ [e.eid] :=
  leaveClassSession_student 9 w3 0 7 w3sess (by decide) (by decide) (by decide)

/-- C6: `startClass` always returns a session with `endedAt` unset,
`currentParticipants` and `participantsHistory` both exactly `[teacherId]`,
`startedAt` the call time, owned by `roomId`, and persists it; there is no
hypothesis that the room exists or that `teacherId` is one of its teachers,
so no such check is performed. -/
theorem startClass_post (now : Nat) (st : Store) (roomId teacherId : Nat) :
    (startClass now st roomId teacherId).1.endedAt = none ∧
    (startClass now st roomId teacherId).1.currentParticipants = [teacherId] ∧
    (startClass now st roomId teacherId).1.participantsHistory = [teacherId] ∧
    (startClass now st roomId teacherId).1.startedAt = now ∧
    (startClass now st roomId teacherId).1.classRoomId = roomId ∧
    (startClass now st roomId teacherId).2.sessions =
      st.sessions ++ [(startClass now st roomId teacherId).1] :=
  ⟨rfl, rfl, rfl, rfl, rfl, rfl⟩

/-- C7: evaluating `leaveClassRoom` at a room whose students are `[1, 2]`
with user 1 leaving: the inverted filter keeps the leaver and drops everyone
else, returning student list `[1]` instead of `[2]`. -/
theorem leaveClassRoom_inverted_filter :
    leaveClassRoom cx7 0 1 UserRole.STUDENT =
      Except.ok { rid := 0, name := "R", isActive := true, teacherParticipant := [9],
                  studentParticipant := [1], participantHistory := [9, 1, 2],
                  eventLog := [] } := by decide

/-- C8: the reporting path never raises: on a missing room it returns the
tagged 404 result carrying "Class room not found" and no data, and on an
existing room a success result whose sessions list has one entry per session
persisted for that room and whose event entries are resolutions (type, name,
role, timestamp) of logged events. -/
theorem getClassRoomReportById_report (st : Store) (roomId : Nat) :
    (findClassroomById st roomId = none →
      getClassRoomReportById st roomId = ReportResult.notFound 404 "Class room not found") ∧
    (∀ c, findClassroomById st roomId = some c →
      ∃ d, getClassRoomReportById st roomId = ReportResult.success 200 d ∧
        d.sessions.length = (st.sessions.filter (fun s => s.classRoomId == c.rid)).length ∧
        ∀ ev ∈ d.eventLog, ∃ eid, eid ∈ c.eventLog ∧ resolveEvent st eid = some ev) := by
  constructor
  · intro hn
    unfold getClassRoomReportById
    rw [hn]
  · intro c hc
    refine ⟨{ rid := c.rid, name := c.name,
              eventLog := c.eventLog.filterMap (resolveEvent st),
              sessions := (st.sessions.filter (fun s => s.classRoomId == c.rid)).map (fun s =>
                { startedAt := s.startedAt, endedAt := s.endedAt,
                  eventLog := s.eventLog.filterMap (resolveEvent st) }) }, ?_, ?_, ?_⟩
    · unfold getClassRoomReportById
      rw [hc]
    · simp
    · intro ev hev
      rw [List.mem_filterMap] at hev
      exact hev

/-- C8 witness: the reporting result on the concrete store `w8`: a missing
room id yields the 404 result, and room 0 yields a success report with one
entry per owned session whose events resolve through `resolveEvent`. -/
theorem getClassRoomReportById_report_w :
    getClassRoomReportById w8 99 = ReportResult.notFound 404 "Class room not found" ∧
    ∃ d, getClassRoomReportById w8 0 = ReportResult.success 200 d ∧
      d.sessions.length = (w8.sessions.filter (fun s => s.classRoomId == w8room.rid)).length ∧
      ∀ ev ∈ d.eventLog, ∃ eid, eid ∈ w8room.eventLog ∧ resolveEvent w8 eid = some ev :=
  ⟨(getClassRoomReportById_report w8 99).1 (by decide),
   (getClassRoomReportById_report w8 0).2 w8room (by decide)⟩

/-- C5 counterexample: with email `b@x` a current member of room 1 only, a
join of room 0 (whose member lists are empty) still fails with
DuplicateParticipant: the duplicate check is not scoped to the target
classroom. -/
theorem joinClassroom_dup_other_room_cx :
    findClassroomById cx5 0 = some cx5roomA ∧
    cx5roomA.studentParticipant = [] ∧ cx5roomA.teacherParticipant = [] ∧
    joinClassroom 0 cx5 0 "B" "b@x" UserRole.STUDENT =
      Except.error SvcError.duplicateParticipant := by decide

/-- C5 (amended): when a row with the email exists and the inactive-room
guard passes, `joinClassroom` fails with DuplicateParticipant exactly when
the email is a current member (teacher or student list) of some classroom in
the store: the query receives only the email and so cannot be scoped to the
target room, and it inspects current lists, not history. -/
theorem joinClassroom_dup_global (now : Nat) (st : Store) (roomId : Nat)
    (name email : String) (role : UserRole) (c : Classroom) (q : Participant)
    (hc : findClassroomById st roomId = some c)
    (hactive : ¬(role = UserRole.STUDENT ∧ c.isActive = false))
    (hq : findParticipantRow st email = some q) :
    joinClassroom now st roomId name email role =
        Except.error SvcError.duplicateParticipant ↔
      findParticipantByEmail st email = true := by
  rw [joinClassroom_eq_of_found now st roomId name email role c hc]
  rw [if_neg hactive, hq]
  cases hdup : findParticipantByEmail st email with
  | true => simp [hdup]
  | false => simp [hdup]

/-- C5 witness: the global-scope duplicate characterization instantiated on
the two-room store `cx5`. -/
theorem joinClassroom_dup_global_w :
    joinClassroom 0 cx5 0 "B" "b@x" UserRole.STUDENT =
        Except.error SvcError.duplicateParticipant ↔
      findParticipantByEmail cx5 "b@x" = true :=
  joinClassroom_dup_global 0 cx5 0 "B" "b@x" UserRole.STUDENT cx5roomA
    ⟨3, "B", "b@x", UserRole.STUDENT⟩ (by decide) (by decide) (by decide)

theorem joinSessionViaSessionList_eq (st : Store) (sessionId : Nat) (part : Participant)
    (session : Session) (hs : findSessionById st sessionId = some session) :
    joinSessionViaSessionList st sessionId part =
      match findClassroomById st session.classRoomId with
      | none => Except.error SvcError.missingClassroom
      | some classRoom =>
        match findParticipantRow st part.email with
        | none =>
          Except.ok ((part, classRoom.rid),
            saveSession
              (saveClassroom
                { st with participants := st.participants ++ [part] }
                { classRoom with
                  studentParticipant := classRoom.studentParticipant ++ [part.pid],
                  participantHistory := classRoom.participantHistory ++ [part.pid] })
              { session with
                currentParticipants := session.currentParticipants ++ [part.pid],
                participantsHistory := session.participantsHistory ++ [part.pid] })
        | some getParticipant =>
          if part.pid ∈ session.currentParticipants then
            Except.error SvcError.alreadyInSession
          else
            if part.pid ∈ classRoom.studentParticipant then
              Except.ok ((getParticipant, classRoom.rid),
                saveSession st
                  { session with
                    currentParticipants := session.currentParticipants ++ [part.pid],
                    participantsHistory := session.participantsHistory ++ [part.pid] })
            else
              Except.ok ((getParticipant, classRoom.rid),
                saveSession
                  (saveClassroom st
                    { classRoom with
                      studentParticipant := classRoom.studentParticipant ++ [part.pid],
                      participantHistory := classRoom.participantHistory ++ [part.pid] })
                  { session with
                    currentParticipants := session.currentParticipants ++ [part.pid],
                    participantsHistory := session.participantsHistory ++ [part.pid] }) := by
  unfold joinSessionViaSessionList
  rw [hs]

/-- C9 counterexample: participant 7 is already a classroom member (of the
teacher list) of `w9room`, yet `joinSessionViaSessionList` appends pid 7 to
the classroom's student and history lists anyway: the membership check is not
a check against classroom membership as a whole. -/
theorem joinSessionViaSessionList_member_cx :
    w9part.pid ∈ w9room.teacherParticipant ∧
    joinSessionViaSessionList w9 0 w9part =
      Except.ok ((⟨7, "T", "t@x", UserRole.TEACHER⟩, 0),
        { classrooms := [{ rid := 0, name := "R", isActive := true,
                           teacherParticipant := [7], studentParticipant := [7],
                           participantHistory := [7, 7], eventLog := [] }],
          sessions := [{ sid := 0, classRoomId := 0, startedAt := 1, endedAt := none,
                         currentParticipants := [7], participantsHistory := [7, 7],
                         eventLog := [] }],
          participants := [⟨7, "T", "t@x", UserRole.TEACHER⟩],
          events := [], nextPid := 8, nextSid := 1 }) := by decide

/-- C9 (amended): given an existing session, its classroom and an existing
row for the payload's email, the call fails with AlreadyInSession exactly
when the payload is already in the session's `currentParticipants`; otherwise
it succeeds returning the found row, appends the payload to the session's
current and history lists unconditionally, and appends it to the classroom's
student and history lists exactly when the payload is absent from the
classroom's `studentParticipant` list (membership in the teacher list is not
consulted). -/
theorem joinSessionViaSessionList_existing (st : Store) (sessionId : Nat)
    (part q : Participant) (session : Session) (classRoom : Classroom)
    (hs : findSessionById st sessionId = some session)
    (hc : findClassroomById st session.classRoomId = some classRoom)
    (hq : findParticipantRow st part.email = some q) :
    (part.pid ∈ session.currentParticipants →
      joinSessionViaSessionList st sessionId part = Except.error SvcError.alreadyInSession) ∧
    (part.pid ∉ session.currentParticipants →
      ∃ st', joinSessionViaSessionList st sessionId part =
          Except.ok ((q, classRoom.rid), st') ∧
        (∃ session', findSessionById st' sessionId = some session' ∧
          session'.currentParticipants = session.currentParticipants ++ [part.pid] ∧
          session'.participantsHistory = session.participantsHistory ++ [part.pid]) ∧
        (∃ classRoom', findClassroomById st' session.classRoomId = some classRoom' ∧
          (part.pid ∈ classRoom.studentParticipant →
            classRoom'.studentParticipant = classRoom.studentParticipant ∧
            classRoom'.participantHistory = classRoom.participantHistory) ∧
          (part.pid ∉ classRoom.studentParticipant →
            classRoom'.studentParticipant = classRoom.studentParticipant ++ [part.pid] ∧
            classRoom'.participantHistory = classRoom.participantHistory ++ [part.pid]))) := by
  constructor
  · intro hmem
    rw [joinSessionViaSessionList_eq st sessionId part session hs, hc, hq]
    simp [hmem]
  · intro hmem
    by_cases hin : part.pid ∈ classRoom.studentParticipant
    · refine ⟨saveSession st
        { session with
          currentParticipants := session.currentParticipants ++ [part.pid],
          participantsHistory := session.participantsHistory ++ [part.pid] },
        ?_, ?_, ?_⟩
      · rw [joinSessionViaSessionList_eq st sessionId part session hs, hc, hq]
        simp [hmem, hin]
      · exact ⟨_, findSession_after_save st sessionId session _ hs rfl, rfl, rfl⟩
      · refine ⟨classRoom, hc, fun _ => ⟨rfl, rfl⟩, fun hx => absurd hin hx⟩
    · refine ⟨saveSession
        (saveClassroom st
          { classRoom with
            studentParticipant := classRoom.studentParticipant ++ [part.pid],
            participantHistory := classRoom.participantHistory ++ [part.pid] })
        { session with
          currentParticipants := session.currentParticipants ++ [part.pid],
          participantsHistory := session.participantsHistory ++ [part.pid] },
        ?_, ?_, ?_⟩
      · rw [joinSessionViaSessionList_eq st sessionId part session hs, hc, hq]
        simp [hmem, hin]
      · exact ⟨_, findSession_after_save _ sessionId session _ hs rfl, rfl, rfl⟩
      · refine ⟨{ classRoom with
            studentParticipant := classRoom.studentParticipant ++ [part.pid],
            participantHistory := classRoom.participantHistory ++ [part.pid] },
          findClassroom_after_save st session.classRoomId classRoom _ hc rfl,
          fun hx => absurd hx hin, fun _ => ⟨rfl, rfl⟩⟩

/-- C9 witness: the amended behaviour instantiated on the concrete store
`w9` whose payload already has a row: joining succeeds (the payload is not in
the session) and the classroom branch appends because pid 7 is absent from
the student list. -/
theorem joinSessionViaSessionList_existing_w :
    ∃ st', joinSessionViaSessionList w9 0 w9part =
        Except.ok ((⟨7, "T", "t@x", UserRole.TEACHER⟩, w9room.rid), st') ∧
      (∃ session', findSessionById st' 0 = some session' ∧
        session'.currentParticipants = w9sess.currentParticipants ++ [w9part.pid] ∧
        session'.participantsHistory = w9sess.participantsHistory ++ [w9part.pid]) ∧
      (∃ classRoom', findClassroomById st' w9sess.classRoomId = some classRoom' ∧
        (w9part.pid ∈ w9room.studentParticipant →
          classRoom'.studentParticipant = w9room.studentParticipant ∧
          classRoom'.participantHistory = w9room.participantHistory) ∧
        (w9part.pid ∉ w9room.studentParticipant →
          classRoom'.studentParticipant = w9room.studentParticipant ++ [w9part.pid] ∧
          classRoom'.participantHistory = w9room.participantHistory ++ [w9part.pid])) :=
  (joinSessionViaSessionList_existing w9 0 w9part ⟨7, "T", "t@x", UserRole.TEACHER⟩
    w9sess w9room (by decide) (by decide) (by decide)).2 (by decide)

/-- C10: every classroom append performed by `joinSessionViaSessionList`
targets `studentParticipant` regardless of the payload's role, and the
already-in-classroom check inspects only `studentParticipant`, so a payload
whose pid sits only in the teacher list is appended to the student list
again; `teacherParticipant` itself never changes. -/
theorem joinSessionViaSessionList_student_list_only (st : Store) (sessionId : Nat)
    (part : Participant) (session : Session) (classRoom : Classroom)
    (hs : findSessionById st sessionId = some session)
    (hc : findClassroomById st session.classRoomId = some classRoom) :
    (findParticipantRow st part.email = none →
      ∃ r st', joinSessionViaSessionList st sessionId part = Except.ok (r, st') ∧
        ∃ classRoom', findClassroomById st' session.classRoomId = some classRoom' ∧
          classRoom'.studentParticipant = classRoom.studentParticipant ++ [part.pid] ∧
          classRoom'.teacherParticipant = classRoom.teacherParticipant) ∧
    (∀ q, findParticipantRow st part.email = some q →
      part.pid ∉ session.currentParticipants →
      part.pid ∈ classRoom.teacherParticipant →
      part.pid ∉ classRoom.studentParticipant →
      ∃ r st', joinSessionViaSessionList st sessionId part = Except.ok (r, st') ∧
        ∃ classRoom', findClassroomById st' session.classRoomId = some classRoom' ∧
          classRoom'.studentParticipant = classRoom.studentParticipant ++ [part.pid] ∧
          classRoom'.teacherParticipant = classRoom.teacherParticipant) := by
  constructor
  · intro hq
    refine ⟨(part, classRoom.rid),
      saveSession
        (saveClassroom
          { st with participants := st.participants ++ [part] }
          { classRoom with
            studentParticipant := classRoom.studentParticipant ++ [part.pid],
            participantHistory := classRoom.participantHistory ++ [part.pid] })
        { session with
          currentParticipants := session.currentParticipants ++ [part.pid],
          participantsHistory := session.participantsHistory ++ [part.pid] },
      ?_, ?_⟩
    · rw [joinSessionViaSessionList_eq st sessionId part session hs, hc, hq]
    · have hc1 : findClassroomById
          { st with participants := st.participants ++ [part] }
          session.classRoomId = some classRoom := hc
      exact ⟨{ classRoom with
          studentParticipant := classRoom.studentParticipant ++ [part.pid],
          participantHistory := classRoom.participantHistory ++ [part.pid] },
        findClassroom_after_save _ session.classRoomId classRoom _ hc1 rfl, rfl, rfl⟩
  · intro q hq hmem _ hstu
    refine ⟨(q, classRoom.rid),
      saveSession
        (saveClassroom st
          { classRoom with
            studentParticipant := classRoom.studentParticipant ++ [part.pid],
            participantHistory := classRoom.participantHistory ++ [part.pid] })
        { session with
          currentParticipants := session.currentParticipants ++ [part.pid],
          participantsHistory := session.participantsHistory ++ [part.pid] },
      ?_, ?_⟩
    · rw [joinSessionViaSessionList_eq st sessionId part session hs, hc, hq]
      simp [hmem, hstu]
    · exact ⟨{ classRoom with
          studentParticipant := classRoom.studentParticipant ++ [part.pid],
          participantHistory := classRoom.participantHistory ++ [part.pid] },
        findClassroom_after_save st session.classRoomId classRoom _ hc rfl, rfl, rfl⟩

/-- C10 witness: both branches instantiated on `w9`: a brand-new payload
(pid 9, role TEACHER) lands in the student list, and the teacher-member
payload (pid 7) is appended to the student list again. -/
theorem joinSessionViaSessionList_student_list_only_w :
    (∃ r st', joinSessionViaSessionList w9 0 (⟨9, "N", "n@x", UserRole.TEACHER⟩ : Participant) =
        Except.ok (r, st') ∧
      ∃ classRoom', findClassroomById st' w9sess.classRoomId = some classRoom' ∧
        classRoom'.studentParticipant = w9room.studentParticipant ++ [9] ∧
        classRoom'.teacherParticipant = w9room.teacherParticipant) ∧
    (∃ r st', joinSessionViaSessionList w9 0 w9part = Except.ok (r, st') ∧
      ∃ classRoom', findClassroomById st' w9sess.classRoomId = some classRoom' ∧
        classRoom'.studentParticipant = w9room.studentParticipant ++ [w9part.pid] ∧
        classRoom'.teacherParticipant = w9room.teacherParticipant) :=
  ⟨(joinSessionViaSessionList_student_list_only w9 0 ⟨9, "N", "n@x", UserRole.TEACHER⟩
      w9sess w9room (by decide) (by decide)).1 (by decide),
   (joinSessionViaSessionList_student_list_only w9 0 w9part
      w9sess w9room (by decide) (by decide)).2 ⟨7, "T", "t@x", UserRole.TEACHER⟩
      (by decide) (by decide) (by decide) (by decide)⟩
